import Mathlib

/-!
Verification of the ALM engine (src/ALM/ALM.py).

Shallow embedding of the numeric core of the `ALM` class: the discount-curve
bootstrapping of `report_discount_rate`, the calibration of
`report_neutral_risk`, the asset projection of `assets_variables_projection`,
the liability projection of `cash_flows_liabilities`, the attribute-dictionary
semantics of `ALM.__init__` / `set_default`, and the reporting aggregations of
`report_asset_liability` and `report_cash_flow`.

Python floats are modelled as exact arithmetic: quantities that the source
manipulates with `+ - * /` and integer powers live in `ℚ`; the fractional
powers of the bootstrapping formulas live in `ℝ` with `Real.rpow`.
Imperative loops become structural recursions, numpy arrays become functions
`ℕ → ℚ` (or lists), and Python's attribute dictionaries become association
lists from `String` to a value type.
-/

/-! ## DiscountEngine: `report_discount_rate` (ALM.py lines 326-354)

The source extracts `forward_rates[i]` per projection year, then runs three
loops: spot-rate bootstrapping, deflators, and per-period discount rates.
`spot_rates`, `deflator` and `discount_rates` below are direct translations
of those loops; the loop-carried array entry at index `t` becomes the value
of the recursion at `t`. -/

/-- Spot-rate bootstrapping loop of `report_discount_rate`:
`spot_rates[0] = forward_rates[0]`; for `t = 1` the loop takes the
`if t == 1` branch (`spot_rates[t] = forward_rates[t]`); for `t ≥ 2` it sets
`spot_rates[t] = (compound_prev * (1 + forward_rates[t])) ** (1/(t+1)) - 1`
with `compound_prev = (1 + spot_rates[t-1]) ** t`. -/
noncomputable def spot_rates (fwd : ℕ → ℝ) : ℕ → ℝ
  | 0 => fwd 0
  | 1 => fwd 1
  | (k + 2) =>
      ((1 + spot_rates fwd (k + 1)) ^ (k + 2) * (1 + fwd (k + 2))) ^ (1 / ((k : ℝ) + 3)) - 1

/-- Deflator loop of `report_discount_rate`: `deflator[0] = 1.0`, and
`deflator[t] = 1 / ((1 + spot_rates[t]) ** t)` for `t ≥ 1`. -/
noncomputable def deflator (fwd : ℕ → ℝ) : ℕ → ℝ
  | 0 => 1
  | (t + 1) => 1 / (1 + spot_rates fwd (t + 1)) ^ (t + 1)

/-- Discount-rate loop of `report_discount_rate`: `discount_rates[0] = 0.0`,
and `discount_rates[t] = (1 / deflator[t]) ** (1/t) - 1` for `t ≥ 1`. -/
noncomputable def discount_rates (fwd : ℕ → ℝ) : ℕ → ℝ
  | 0 => 0
  | (t + 1) => (1 / deflator fwd (t + 1)) ^ (1 / ((t : ℝ) + 1)) - 1

/-- The 5-year example forward-rate path `[0.02, 0.021, 0.022, 0.023, 0.024]`
from the specification's example scenario. -/
noncomputable def exampleForwards : ℕ → ℝ := fun t =>
  if t = 0 then 0.02 else if t = 1 then 0.021 else if t = 2 then 0.022
  else if t = 3 then 0.023 else 0.024

/-! ## NeutralRiskCalibrator: `report_neutral_risk` (ALM.py lines 408-448)

`n = len(self.deflator)`. The source builds `bonds_cf = np.zeros(n)`, sets
`bonds_cf[1:] = nominal * coupon_rate` and `bonds_cf[-1] += nominal`; the
deflator array becomes a function `d : ℕ → ℚ` together with its length `n`. -/

/-- Bond cash-flow array of `report_neutral_risk`: zero at index 0 (unless
`n = 1`, where index 0 is also the last index `-1`), `nominal * coupon` at
indices `1 .. n-1`, with `nominal` added at the last index `n-1`. -/
def bonds_cf (nominal coupon : ℚ) (n t : ℕ) : ℚ :=
  (if 1 ≤ t ∧ t < n then nominal * coupon else 0) + (if t = n - 1 then nominal else 0)

/-- `total_pv_bonds = np.sum(disc_cf[1:])` where
`disc_cf[t] = bonds_cf[t] * deflator[t]` for `t` in `1 .. n-1`. -/
def total_pv_bonds (d : ℕ → ℚ) (nominal coupon : ℚ) (n : ℕ) : ℚ :=
  ∑ t ∈ Finset.Ico 1 n, bonds_cf nominal coupon n t * d t

/-- The scalar `neutral_factor` of `report_neutral_risk`:
`bonds_initial_mv / total_pv_bonds` when `total_pv_bonds > 0`, else `1`
(the value written into `neutral_risk_factor[1:]`). -/
def neutral_factor (d : ℕ → ℚ) (nominal coupon mv : ℚ) (n : ℕ) : ℚ :=
  if 0 < total_pv_bonds d nominal coupon n then mv / total_pv_bonds d nominal coupon n else 1

/-- `neutral_cf = bonds_cf.copy()` followed by
`neutral_cf[t] = bonds_cf[t] * neutral_risk_factor[t]` for `t` in `1 .. n-1`. -/
def neutral_cf (d : ℕ → ℚ) (nominal coupon mv : ℚ) (n t : ℕ) : ℚ :=
  if 1 ≤ t ∧ t < n then bonds_cf nominal coupon n t * neutral_factor d nominal coupon mv n
  else bonds_cf nominal coupon n t

/-- `pv_neutral = np.sum(neutral_cf[1:] * self.deflator[1:])`. -/
def pv_neutral (d : ℕ → ℚ) (nominal coupon mv : ℚ) (n : ℕ) : ℚ :=
  ∑ t ∈ Finset.Ico 1 n, neutral_cf d nominal coupon mv n t * d t

/-- The columns of the report returned by `report_neutral_risk`, plus the
validation flag: `warning` is true exactly when
`np.isclose(pv_neutral, bonds_initial_mv, atol=abs(mv*0.001))` fails, i.e.
when `|pv_neutral - mv| > |mv*0.001| + rtol*|mv|` with numpy's default
`rtol = 1e-5`.  The report is returned unconditionally: a failed check only
sets the flag (the source prints a warning), it never suppresses the result. -/
structure NRResult where
  bondCF : ℕ → ℚ
  pvCF : ℕ → ℚ
  factor : ℚ
  neutralCF : ℕ → ℚ
  pvCheck : ℚ
  warning : Bool

/-- `report_neutral_risk`, given a computed deflator array `d` of length `n`. -/
def report_neutral_risk (d : ℕ → ℚ) (n : ℕ) (nominal coupon mv : ℚ) : NRResult :=
  ⟨bonds_cf nominal coupon n,
   fun t => if 1 ≤ t ∧ t < n then bonds_cf nominal coupon n t * d t else 0,
   neutral_factor d nominal coupon mv n,
   neutral_cf d nominal coupon mv n,
   pv_neutral d nominal coupon mv n,
   !(decide (|pv_neutral d nominal coupon mv n - mv| ≤ |mv * (1 / 1000)| + (1 / 100000) * |mv|))⟩

/-! ## Attribute dictionaries: `ALM.__init__` (lines 127-161) and
`set_default` (lines 163-178)

Python instance attributes are an association list from attribute name to
value; `setattr` prepends (lookup takes the first match, so a later `setattr`
shadows an earlier binding, like dictionary assignment).  `getattr` falls back
to the class-level defaults when the instance dictionary has no entry. -/

/-- Values held by ALM attributes: the class-level defaults are all numbers;
instances additionally hold arrays (`self.years`, cached projections). -/
inductive Val where
  | num : ℚ → Val
  | arr : List ℚ → Val
deriving DecidableEq

abbrev AttrDict := List (String × Val)

/-- The non-dunder, non-callable class-level attributes of `ALM`
(ALM.py lines 73-125), exactly the pairs `set_default` iterates over. -/
def classDefaults : AttrDict :=
  [("opening_year", .num 2015),
   ("insured_number", .num 10000),
   ("insured_premium", .num 50000),
   ("average_age", .num 45),
   ("contracts_maturity", .num 20),
   ("charges_rate", .num (3 / 200)),
   ("fee_pct_premium", .num (1 / 40)),
   ("fixed_fee", .num 500),
   ("fixed_cost_inflation", .num (1 / 40)),
   ("redemption_rates", .num (1 / 20)),
   ("guaranteed_minimum_rate", .num (1 / 40)),
   ("regu_distrib_tech_res", .num (17 / 20)),
   ("regu_distrib_fin_prod", .num (3 / 4)),
   ("contra_distrib_fin_prod", .num (4 / 5)),
   ("repurchase_rate", .num (3 / 100)),
   ("initial_fp_percentage", .num (3 / 5)),
   ("risk_adjustment", .num 50000),
   ("capital_reserve", .num 500000),
   ("ppe", .num 100000),
   ("tax_rate", .num (11 / 50)),
   ("nominal", .num 1000000),
   ("coupon_rate", .num (7 / 200)),
   ("bonds_initial_mv", .num 950000),
   ("bonds_initial_vnc", .num 980000),
   ("alloc_bonds", .num (3 / 5)),
   ("alloc_stocks", .num (3 / 10)),
   ("alloc_cash", .num (1 / 10)),
   ("stocks_initial_mv", .num 1200000),
   ("stocks_initial_vnc", .num 1100000)]

/-- `set_default`: `for attr, val in ALM.__dict__.items(): if not
attr.startswith('__') and not callable(val): setattr(self, attr, val)`.
Each `setattr` prepends a binding to the instance dictionary. -/
def set_default (inst : AttrDict) : AttrDict :=
  classDefaults.foldl (fun acc p => p :: acc) inst

/-- `ALM.__init__`: applies the override dictionaries / keyword arguments via
`setattr` onto a fresh instance.  No validation of any kind is performed on
the overrides (the allocation fractions in particular are not checked). -/
def alm_init (overrides : AttrDict) : AttrDict :=
  overrides.foldl (fun acc p => p :: acc) []

/-- Python `getattr` on an ALM instance: the instance dictionary first, the
class-level default otherwise. -/
def getattr_alm (inst : AttrDict) (name : String) : Option Val :=
  (inst.lookup name).or (classDefaults.lookup name)

/-- Numeric content of an attribute value (0 for absent or non-numeric). -/
def valNum : Option Val → ℚ
  | some (.num q) => q
  | _ => 0

/-- `alloc_bonds + alloc_stocks + alloc_cash` as seen on an instance. -/
def alloc_sum (inst : AttrDict) : ℚ :=
  valNum (getattr_alm inst "alloc_bonds") + valNum (getattr_alm inst "alloc_stocks") +
    valNum (getattr_alm inst "alloc_cash")

/-! ## AssetProjector: `assets_variables_projection` (ALM.py lines 469-560)

The projection loop is deterministic except for the stock market value: when
`self.volatility_selected` exists the source draws `np.random.normal(0, 1)`
from numpy's ambient global generator each year.  The embedding makes that
ambient draw stream explicit as an oracle `shock : ℕ → ℚ` consumed by the
run; two program runs correspond to two evaluations with the draw streams the
ambient generator happened to produce. -/

/-- Stock market value loop: `stocks_mv[t] = stocks_mv[t-1] * (1 + g)` with
`g = 0.08 + volatility[t] * np.random.normal(0,1)` when `volatility_selected`
exists, and `g = 0.08` otherwise. -/
def stocks_mv_path (mv0 : ℚ) (vol : Option (ℕ → ℚ)) (shock : ℕ → ℚ) : ℕ → ℚ
  | 0 => mv0
  | (t + 1) =>
      stocks_mv_path mv0 vol shock t *
        (1 + (match vol with
              | some v => 2 / 25 + v (t + 1) * shock (t + 1)
              | none => 2 / 25))

/-- Bond book-value loop: amortization toward `nominal` by `1/contracts_maturity`
per year, `bonds_vnc[t] = bonds_vnc[t-1] + (nominal - bonds_vnc[t-1]) / maturity`. -/
def bonds_vnc_path (vnc0 nominal maturity : ℚ) : ℕ → ℚ
  | 0 => vnc0
  | (t + 1) => bonds_vnc_path vnc0 nominal maturity t +
      (nominal - bonds_vnc_path vnc0 nominal maturity t) * (1 / maturity)

/-- Bond market-value loop: with a selected forward path, a duration-approximated
price shift `bonds_mv[t] = bonds_mv[0] * (1 - max(1, maturity - t) *
(forward[t] - forward[0]))`; without one, 2% growth per year. -/
def bonds_mv_path (mv0 : ℚ) (fwd : Option (ℕ → ℚ)) (maturity : ℕ) : ℕ → ℚ
  | 0 => mv0
  | (t + 1) =>
      match fwd with
      | some f => mv0 * (1 + -((max 1 (maturity - (t + 1)) : ℕ) : ℚ) * (f (t + 1) - f 0))
      | none => bonds_mv_path mv0 fwd maturity t * (51 / 50)

/-- Cash loop: `cash[t] = cash[t-1] * (1 + rate)` with `rate = forward[t] * 0.5`
when a selected forward path exists and `0.02` otherwise. -/
def cash_path (c0 : ℚ) (fwd : Option (ℕ → ℚ)) : ℕ → ℚ
  | 0 => c0
  | (t + 1) => cash_path c0 fwd t *
      (1 + (match fwd with
            | some f => f (t + 1) * (1 / 2)
            | none => 1 / 50))

/-- The arrays produced by `assets_variables_projection`, as functions of the
engine state and of the ambient random draw stream. -/
structure AssetProjection where
  bonds_vnc : ℕ → ℚ
  bonds_mv : ℕ → ℚ
  stocks_mv : ℕ → ℚ
  cash_balance : ℕ → ℚ

/-- `assets_variables_projection`: only the stock market value consumes the
ambient random stream, and only when a volatility array is present. -/
def assets_variables_projection (vnc0 bmv0 smv0 c0 nominal maturity : ℚ)
    (matn : ℕ) (fwd vol : Option (ℕ → ℚ)) (shock : ℕ → ℚ) : AssetProjection :=
  ⟨bonds_vnc_path vnc0 nominal maturity,
   bonds_mv_path bmv0 fwd matn,
   stocks_mv_path smv0 vol shock,
   cash_path c0 fwd⟩

/-! ## LiabilityProjector: `cash_flows_liabilities` (ALM.py lines 649-676)

`mortality_rates` is `self.mortality_table['Qx'].values` when a table is
loaded — modelled as a `List ℚ` of Qx values indexed by age — and otherwise
the synthesized default array `[0.001 * 1.1**i for i in range(100)]`; an age
beyond the array's range falls back to the flat rate `0.05`. -/

/-- Mortality-rate lookup of `cash_flows_liabilities`:
`mortality_rates[int(current_age)]` if `current_age < len(mortality_rates)`
else `0.05`; the default synthesized array has `mortality_rates[i] =
0.001 * 1.1 ** i` for `i < 100`. -/
def mortality_rate (table : Option (List ℚ)) (age : ℕ) : ℚ :=
  match table with
  | some qx => if age < qx.length then qx.getD age 0 else 1 / 20
  | none => if age < 100 then (1 / 1000) * (11 / 10) ^ age else 1 / 20

/-- The `contracts_in_force` loop variable: starts at `insured_number`; in
each year `t ≥ 1` (current age `average_age + t`) it is multiplied by
`(1 - mortality_rate - redemption_rates)`. -/
def contracts_in_force (table : Option (List ℚ)) (n0 : ℚ) (age0 : ℕ) (r : ℚ) : ℕ → ℚ
  | 0 => n0
  | (t + 1) => contracts_in_force table n0 age0 r t *
      (1 - mortality_rate table (age0 + t + 1) - r)

/-- `premium_income[t] = contracts_in_force * insured_premium`. -/
def premium_income (table : Option (List ℚ)) (n0 : ℚ) (age0 : ℕ) (r P : ℚ) (t : ℕ) : ℚ :=
  contracts_in_force table n0 age0 r t * P

/-! ## Forward-rate column selection (ALM.py lines 314-317)

`if selected_maturity in self.forward_rates.columns:` use that column,
`else:` fall back to `self.forward_rates.iloc[closest_idx, 0]`, i.e. the
first column; with zero columns that positional access raises (the internal
failure the spec calls MissingCurveData).  A row of the loaded table is an
association list from column name to value, in column order. -/

inductive CurveError where
  | missingCurveData
deriving DecidableEq

/-- Forward-rate lookup for the selected maturity within one table row:
the named column when present, the first column as fallback, and the
MissingCurveData failure when the row has no columns at all. -/
def lookupForwardRate (row : List (String × ℚ)) (mat : String) : Except CurveError ℚ :=
  match row.lookup mat with
  | some v => .ok v
  | none =>
    match row with
    | [] => .error .missingCurveData
    | p :: _ => .ok p.2

/-! ## BalanceSheetReporter: `report_asset_liability` (ALM.py lines 1025-1059)
and its helpers `total_assets_booked_value` (line 572) and
`total_liabilities_vnc` (line 966). -/

/-- `total_vnc = bonds_vnc + stocks_vnc + cash_balance`. -/
def total_assets_booked_value (bvnc svnc cash : ℕ → ℚ) (t : ℕ) : ℚ :=
  bvnc t + svnc t + cash t

/-- `total_liabilities = technical_reserves + risk_adjustment`. -/
def total_liabilities_vnc (tech : ℕ → ℚ) (risk_adj : ℚ) (t : ℕ) : ℚ :=
  tech t + risk_adj

/-- `surplus_bv = total_assets_bv - total_liabilities_bv`. -/
def surplus_bv (bvnc svnc cash tech : ℕ → ℚ) (risk_adj : ℚ) (t : ℕ) : ℚ :=
  total_assets_booked_value bvnc svnc cash t - total_liabilities_vnc tech risk_adj t

/-- The (Assets BV, Liabilities BV, Surplus BV) columns of the
`report_asset_liability` table, one row per projection year. -/
def report_asset_liability_rows (bvnc svnc cash tech : ℕ → ℚ) (risk_adj : ℚ)
    (n : ℕ) : List (ℚ × ℚ × ℚ) :=
  (List.range n).map fun t =>
    (total_assets_booked_value bvnc svnc cash t,
     total_liabilities_vnc tech risk_adj t,
     surplus_bv bvnc svnc cash tech risk_adj t)

/-! ## CashFlowReporter: `report_cash_flow` (ALM.py lines 1106-1129)

`total_asset_cf = bonds_vnc*coupon_rate + stocks_mv*0.03 + cash*0.02`;
`total_liability_cf = benefit_payments + surrender_benefits + expenses`;
`cf_coverage_ratio = np.where(total_liability_cf > 0,
total_asset_cf / total_liability_cf, np.inf)`.  `np.inf` is modelled as `⊤`
in `WithTop ℚ`. -/

/-- Investment income line: bond coupons + 3% stock dividends + 2% cash
interest. -/
def total_asset_cf (bvnc smv cash : ℕ → ℚ) (coupon : ℚ) (t : ℕ) : ℚ :=
  bvnc t * coupon + smv t * (3 / 100) + cash t * (1 / 50)

/-- Outflow line: benefits + surrenders + expenses. -/
def total_liability_cf (ben sur expns : ℕ → ℚ) (t : ℕ) : ℚ :=
  ben t + sur t + expns t

/-- The `CF Coverage Ratio` column: `total_asset_cf / total_liability_cf`
where the outflow is positive, `np.inf` (here `⊤`) otherwise. -/
def cf_coverage (bvnc smv cash ben sur expns : ℕ → ℚ) (coupon : ℚ) (t : ℕ) : WithTop ℚ :=
  if 0 < total_liability_cf ben sur expns t then
    ((total_asset_cf bvnc smv cash coupon t / total_liability_cf ben sur expns t : ℚ) : WithTop ℚ)
  else ⊤

/-- The (Premium Income, Investment Income, Total Outflows, CF Coverage
Ratio) columns of the `report_cash_flow` table, one row per projection
year. -/
def report_cash_flow_rows (prem bvnc smv cash ben sur expns : ℕ → ℚ) (coupon : ℚ)
    (n : ℕ) : List (ℚ × ℚ × ℚ × WithTop ℚ) :=
  (List.range n).map fun t =>
    (prem t, total_asset_cf bvnc smv cash coupon t, total_liability_cf ben sur expns t,
     cf_coverage bvnc smv cash ben sur expns coupon t)

/-! ## Reporting boundary (ALM.py lines 300/379-392, 404-406, 1016/1072-1086,
1095/1157-1174)

`report_discount_rate`, `report_asset_liability` and `report_cash_flow` wrap
their bodies in `try/except` and return an empty DataFrame with the proper
column structure on any internal failure.  `report_neutral_risk` has no such
wrapper: its first statement raises `AttributeError` when `self.deflator`
does not exist.  An `Except` value models an exception escaping the method;
the wrapped reports therefore have a plain (total) return type. -/

inductive NRError where
  | missingDeflator
deriving DecidableEq

/-- `report_neutral_risk` at the reporting boundary: raises (models the
uncaught `AttributeError`) when no deflator has been computed, otherwise
returns the calibration report. -/
def reportNeutralRiskTotal (d : Option (ℕ → ℚ)) (n : ℕ) (nominal coupon mv : ℚ) :
    Except NRError NRResult :=
  match d with
  | none => .error .missingDeflator
  | some d => .ok (report_neutral_risk d n nominal coupon mv)

/-- The (Forward Rate, Spot Rate, Deflator, Discount Rate) columns of the
`report_discount_rate` table. -/
structure DiscountDF where
  rows : List (ℝ × ℝ × ℝ × ℝ)

/-- The empty, properly-structured DataFrame returned from the `except`
branch of `report_discount_rate`. -/
def emptyDiscountDF : DiscountDF := ⟨[]⟩

/-- `report_discount_rate` at the reporting boundary: with no loaded
forward-rate table the body raises internally (`self.forward_rates` is
missing), the `except` branch catches it and the empty frame is returned;
otherwise the computed table is returned. -/
noncomputable def reportDiscountRate (fwd : Option (ℕ → ℝ)) (n : ℕ) : DiscountDF :=
  match fwd with
  | none => emptyDiscountDF
  | some f =>
      ⟨(List.range n).map fun t => (f t, spot_rates f t, deflator f t, discount_rates f t)⟩

/-! ## Theorems -/

theorem spot_rates_add_two (fwd : ℕ → ℝ) (k : ℕ) :
    spot_rates fwd (k + 2) =
      ((1 + spot_rates fwd (k + 1)) ^ (k + 2) * (1 + fwd (k + 2))) ^ (1 / ((k : ℝ) + 3)) - 1 :=
  rfl

theorem deflator_succ (fwd : ℕ → ℝ) (t : ℕ) :
    deflator fwd (t + 1) = 1 / (1 + spot_rates fwd (t + 1)) ^ (t + 1) :=
  rfl

theorem discount_rates_succ (fwd : ℕ → ℝ) (t : ℕ) :
    discount_rates fwd (t + 1) = (1 / deflator fwd (t + 1)) ^ (1 / ((t : ℝ) + 1)) - 1 :=
  rfl

/-- C1: `report_discount_rate` bootstraps spot rates as `spot[0] = forward[0]`,
`spot[1] = forward[1]`, and for `t ≥ 2`
`spot[t] = ((1+spot[t-1])^t * (1+forward[t]))^(1/(t+1)) - 1`; it sets
`deflator[0] = 1`, `deflator[t] = (1+spot[t])^(-t)` for `t ≥ 1`,
`discount_rate[0] = 0` and `discount_rate[t] = deflator[t]^(-1/t) - 1`
(the last equality stated under nonnegativity of the deflator, which is the
regime in which the real fractional power agrees with the float computation);
on the 5-year example with forward rates `[0.02, 0.021, 0.022, 0.023, 0.024]`
it produces `deflator[0] = 1` and `deflator[1] = 1/1.021`. -/
theorem c1_discount_rate_bootstrap (fwd : ℕ → ℝ) (t s : ℕ)
    (ht : 2 ≤ t) (hs : 1 ≤ s) (hd : 0 ≤ deflator fwd s) :
    spot_rates fwd 0 = fwd 0 ∧
    spot_rates fwd 1 = fwd 1 ∧
    spot_rates fwd t =
      ((1 + spot_rates fwd (t - 1)) ^ t * (1 + fwd t)) ^ (1 / ((t : ℝ) + 1)) - 1 ∧
    deflator fwd 0 = 1 ∧
    deflator fwd s = (1 + spot_rates fwd s) ^ (-(s : ℤ)) ∧
    discount_rates fwd 0 = 0 ∧
    discount_rates fwd s = deflator fwd s ^ (-(1 / (s : ℝ))) - 1 ∧
    deflator exampleForwards 0 = 1 ∧
    deflator exampleForwards 1 = 1 / 1.021 := by
  obtain ⟨k, rfl⟩ : ∃ k, t = k + 2 := ⟨t - 2, by omega⟩
  obtain ⟨m, rfl⟩ : ∃ m, s = m + 1 := ⟨s - 1, by omega⟩
  refine ⟨rfl, rfl, ?_, rfl, ?_, rfl, ?_, rfl, ?_⟩
  · rw [spot_rates_add_two]
    have h1 : k + 2 - 1 = k + 1 := rfl
    have h2 : ((k + 2 : ℕ) : ℝ) + 1 = (k : ℝ) + 3 := by push_cast; ring
    rw [h1, h2]
  · rw [deflator_succ, zpow_neg, zpow_natCast, one_div]
  · rw [discount_rates_succ]
    have h2 : ((m + 1 : ℕ) : ℝ) = (m : ℝ) + 1 := by push_cast; ring
    rw [h2, Real.rpow_neg hd, one_div (deflator fwd (m + 1)), Real.inv_rpow hd]
  · have h1 : deflator exampleForwards 1 = 1 / (1 + exampleForwards 1) ^ 1 := rfl
    have h2 : exampleForwards 1 = (0.021 : ℝ) := rfl
    rw [h1, h2]
    norm_num

/-- Witness for C1: the bootstrapping theorem applied to the example forward
path at `t = 2`, `s = 1`. -/
theorem c1_discount_rate_bootstrap_witness :
    spot_rates exampleForwards 0 = exampleForwards 0 ∧
    spot_rates exampleForwards 1 = exampleForwards 1 ∧
    spot_rates exampleForwards 2 =
      ((1 + spot_rates exampleForwards 1) ^ 2 * (1 + exampleForwards 2)) ^
        (1 / ((2 : ℕ) + 1 : ℝ)) - 1 ∧
    deflator exampleForwards 0 = 1 ∧
    deflator exampleForwards 1 = (1 + spot_rates exampleForwards 1) ^ (-(1 : ℤ)) ∧
    discount_rates exampleForwards 0 = 0 ∧
    discount_rates exampleForwards 1 = deflator exampleForwards 1 ^ (-(1 / (1 : ℝ))) - 1 ∧
    deflator exampleForwards 0 = 1 ∧
    deflator exampleForwards 1 = 1 / 1.021 := by
  have hd : 0 ≤ deflator exampleForwards 1 := by
    have h1 : deflator exampleForwards 1 = 1 / (1 + exampleForwards 1) ^ 1 := rfl
    have h2 : exampleForwards 1 = (0.021 : ℝ) := rfl
    rw [h1, h2]
    norm_num
  have h := c1_discount_rate_bootstrap exampleForwards 2 1 (by norm_num) (by norm_num) hd
  have h21 : (2 : ℕ) - 1 = 1 := rfl
  rw [h21] at h
  have hc : ((1 : ℕ) : ℤ) = (1 : ℤ) := by norm_num
  have hc2 : ((1 : ℕ) : ℝ) = (1 : ℝ) := by norm_num
  rw [hc, hc2] at h
  exact h

/-- C2: given a deflator array of length `n`, `report_neutral_risk` builds
coupon cash flows `nominal * coupon_rate` in years `1 .. n-1` with the
nominal repaid in the final year, sets the neutral factor to
`bonds_initial_mv / total_pv` when `total_pv > 0`, applies it uniformly to
the cash flows, and the discounted sum of the neutral cash flows then equals
`bonds_initial_mv` exactly (hence within the 0.1% tolerance, so the
validation flag stays off); the report with the calibration is returned in
all cases, a mismatch only setting the warning flag. -/
theorem c2_neutral_risk_calibration (d : ℕ → ℚ) (n t : ℕ) (nominal coupon mv : ℚ)
    (hn : 2 ≤ n) (ht1 : 1 ≤ t) (ht2 : t + 1 < n)
    (hpv : 0 < total_pv_bonds d nominal coupon n) :
    bonds_cf nominal coupon n t = nominal * coupon ∧
    bonds_cf nominal coupon n (n - 1) = nominal * coupon + nominal ∧
    neutral_factor d nominal coupon mv n = mv / total_pv_bonds d nominal coupon n ∧
    neutral_cf d nominal coupon mv n t =
      bonds_cf nominal coupon n t * neutral_factor d nominal coupon mv n ∧
    pv_neutral d nominal coupon mv n = mv ∧
    |pv_neutral d nominal coupon mv n - mv| ≤ |mv| * (1 / 1000) ∧
    (report_neutral_risk d n nominal coupon mv).factor = neutral_factor d nominal coupon mv n ∧
    (report_neutral_risk d n nominal coupon mv).warning = false := by
  have hkey : pv_neutral d nominal coupon mv n =
      neutral_factor d nominal coupon mv n * total_pv_bonds d nominal coupon n := by
    unfold pv_neutral total_pv_bonds
    rw [Finset.mul_sum]
    refine Finset.sum_congr rfl ?_
    intro x hx
    rw [Finset.mem_Ico] at hx
    unfold neutral_cf
    rw [if_pos ⟨hx.1, hx.2⟩]
    ring
  have h5 : pv_neutral d nominal coupon mv n = mv := by
    rw [hkey]
    unfold neutral_factor
    rw [if_pos hpv, div_mul_cancel₀ _ (ne_of_gt hpv)]
  refine ⟨?_, ?_, ?_, ?_, h5, ?_, rfl, ?_⟩
  · unfold bonds_cf
    rw [if_pos ⟨ht1, by omega⟩, if_neg (by omega), add_zero]
  · unfold bonds_cf
    rw [if_pos ⟨by omega, by omega⟩, if_pos rfl]
  · unfold neutral_factor
    rw [if_pos hpv]
  · unfold neutral_cf
    rw [if_pos ⟨ht1, by omega⟩]
  · rw [h5, sub_self, abs_zero]
    positivity
  · simp only [report_neutral_risk, Bool.not_eq_false', decide_eq_true_eq]
    rw [h5, sub_self, abs_zero]
    positivity

/-- Witness for C2: the calibration theorem at `d = const 1`, `n = 3`,
`t = 1`, `nominal = 1`, `coupon = 1`, `mv = 6`. -/
theorem c2_neutral_risk_calibration_witness :
    bonds_cf 1 1 3 1 = 1 * 1 ∧
    bonds_cf 1 1 3 (3 - 1) = 1 * 1 + 1 ∧
    neutral_factor (fun _ => 1) 1 1 6 3 = 6 / total_pv_bonds (fun _ => 1) 1 1 3 ∧
    neutral_cf (fun _ => 1) 1 1 6 3 1 = bonds_cf 1 1 3 1 * neutral_factor (fun _ => 1) 1 1 6 3 ∧
    pv_neutral (fun _ => 1) 1 1 6 3 = 6 ∧
    |pv_neutral (fun _ => 1) 1 1 6 3 - 6| ≤ |(6 : ℚ)| * (1 / 1000) ∧
    (report_neutral_risk (fun _ => 1) 3 1 1 6).factor = neutral_factor (fun _ => 1) 1 1 6 3 ∧
    (report_neutral_risk (fun _ => 1) 3 1 1 6).warning = false := by
  have hpv : (0 : ℚ) < total_pv_bonds (fun _ => 1) 1 1 3 := by
    rw [total_pv_bonds, Finset.sum_Ico_eq_sum_range]
    norm_num [Finset.sum_range_succ, bonds_cf]
  exact c2_neutral_risk_calibration (fun _ => 1) 3 1 1 1 6 (by norm_num) (by norm_num)
    (by norm_num) hpv

theorem lookup_eq_none_of_not_mem {l : AttrDict} {name : String}
    (h : name ∉ l.map Prod.fst) : l.lookup name = none := by
  induction l with
  | nil => rfl
  | cons p l ih =>
    simp only [List.map_cons, List.mem_cons, not_or] at h
    rw [List.lookup_cons, beq_eq_false_iff_ne.mpr h.1]
    exact ih h.2

theorem lookup_foldl_setattr (l : AttrDict) (init : AttrDict)
    (h : (l.map Prod.fst).Nodup) (name : String) :
    (l.foldl (fun acc p => p :: acc) init).lookup name =
      (l.lookup name).or (init.lookup name) := by
  induction l generalizing init with
  | nil => simp
  | cons p l ih =>
    simp only [List.map_cons, List.nodup_cons] at h
    rw [List.foldl_cons, ih (p :: init) h.2]
    by_cases hn : name = p.1
    · subst hn
      rw [lookup_eq_none_of_not_mem h.1, List.lookup_cons, List.lookup_cons,
        beq_self_eq_true]
      rfl
    · rw [List.lookup_cons, List.lookup_cons, beq_eq_false_iff_ne.mpr hn]

theorem classDefaults_keys_nodup : (classDefaults.map Prod.fst).Nodup := by decide

theorem set_default_lookup (inst : AttrDict) (name : String) :
    (set_default inst).lookup name = (classDefaults.lookup name).or (inst.lookup name) :=
  lookup_foldl_setattr classDefaults inst classDefaults_keys_nodup name

/-- C3 counterexample: `ALM.__init__` performs no validation whatsoever, so a
configuration with `alloc_bonds = alloc_stocks = alloc_cash = 1/2` is accepted
at construction and yields an instance whose allocation fractions sum to
`3/2 ≠ 1`.  This refutes the claim that a configuration violating
`alloc_bonds + alloc_stocks + alloc_cash = 1` is rejected at construction and
that every constructed instance satisfies the constraint. -/
theorem c3_allocation_counterexample :
    alloc_sum (alm_init
      [("alloc_bonds", Val.num (1 / 2)), ("alloc_stocks", Val.num (1 / 2)),
       ("alloc_cash", Val.num (1 / 2))]) = 3 / 2 ∧ (3 / 2 : ℚ) ≠ 1 := by
  constructor
  · show valNum (some (Val.num (1 / 2))) + valNum (some (Val.num (1 / 2))) +
      valNum (some (Val.num (1 / 2))) = 3 / 2
    norm_num [valNum]
  · norm_num

/-- C3 (amended): the constructor does not enforce
`alloc_bonds + alloc_stocks + alloc_cash = 1`; arbitrary allocation overrides
are stored verbatim on the constructed instance with no rejection, and only
the default configuration happens to satisfy the constraint (3/5 + 3/10 +
1/10 = 1). -/
theorem c3_allocation_accepted_unvalidated (b s c : ℚ) :
    getattr_alm (alm_init
        [("alloc_bonds", Val.num b), ("alloc_stocks", Val.num s),
         ("alloc_cash", Val.num c)]) "alloc_bonds" = some (Val.num b) ∧
    getattr_alm (alm_init
        [("alloc_bonds", Val.num b), ("alloc_stocks", Val.num s),
         ("alloc_cash", Val.num c)]) "alloc_stocks" = some (Val.num s) ∧
    getattr_alm (alm_init
        [("alloc_bonds", Val.num b), ("alloc_stocks", Val.num s),
         ("alloc_cash", Val.num c)]) "alloc_cash" = some (Val.num c) ∧
    alloc_sum (alm_init []) = 1 := by
  refine ⟨rfl, rfl, rfl, ?_⟩
  show valNum (some (Val.num (3 / 5))) + valNum (some (Val.num (3 / 10))) +
    valNum (some (Val.num (1 / 10))) = 1
  norm_num [valNum]

/-- C10: `set_default` assigns every non-dunder, non-callable class-level
attribute of `ALM` onto the instance (any `nm` bound in `classDefaults`
afterwards reads its default `v`) and modifies no other instance attribute:
any name outside `classDefaults` — in particular the `years` timeline, loaded
market tables, and cached projection arrays — still reads its previous
instance binding, so the timeline is not regenerated even though
`contracts_maturity` (a class attribute, default 20) is reset. -/
theorem c10_set_default_frame (inst : AttrDict) (nm nm2 : String) (v : Val)
    (h1 : classDefaults.lookup nm = some v) (h2 : classDefaults.lookup nm2 = none) :
    (set_default inst).lookup nm = some v ∧
    (set_default inst).lookup nm2 = inst.lookup nm2 ∧
    (set_default inst).lookup "years" = inst.lookup "years" ∧
    (set_default inst).lookup "forward_rates" = inst.lookup "forward_rates" ∧
    (set_default inst).lookup "mortality_table" = inst.lookup "mortality_table" ∧
    (set_default inst).lookup "deflator" = inst.lookup "deflator" ∧
    classDefaults.lookup "contracts_maturity" = some (Val.num 20) := by
  refine ⟨?_, ?_, ?_, ?_, ?_, ?_, by rfl⟩
  · rw [set_default_lookup, h1]
    rfl
  · rw [set_default_lookup, h2]
    rfl
  · rw [set_default_lookup, show classDefaults.lookup "years" = none from rfl]
    rfl
  · rw [set_default_lookup, show classDefaults.lookup "forward_rates" = none from rfl]
    rfl
  · rw [set_default_lookup, show classDefaults.lookup "mortality_table" = none from rfl]
    rfl
  · rw [set_default_lookup, show classDefaults.lookup "deflator" = none from rfl]
    rfl

/-- Witness for C10: `set_default` applied to an instance that carries only a
`years` array, read back at the class attribute `alloc_bonds` and at the
non-class name `deflator`. -/
theorem c10_set_default_frame_witness :
    (set_default [("years", Val.arr [2015])]).lookup "alloc_bonds" = some (Val.num (3 / 5)) ∧
    (set_default [("years", Val.arr [2015])]).lookup "deflator" =
      List.lookup "deflator" [("years", Val.arr [2015])] ∧
    (set_default [("years", Val.arr [2015])]).lookup "years" =
      List.lookup "years" [("years", Val.arr [2015])] ∧
    (set_default [("years", Val.arr [2015])]).lookup "forward_rates" =
      List.lookup "forward_rates" [("years", Val.arr [2015])] ∧
    (set_default [("years", Val.arr [2015])]).lookup "mortality_table" =
      List.lookup "mortality_table" [("years", Val.arr [2015])] ∧
    (set_default [("years", Val.arr [2015])]).lookup "deflator" =
      List.lookup "deflator" [("years", Val.arr [2015])] ∧
    classDefaults.lookup "contracts_maturity" = some (Val.num 20) :=
  c10_set_default_frame [("years", Val.arr [2015])] "alloc_bonds" "deflator"
    (Val.num (3 / 5)) (by rfl) (by rfl)

/-- C4 counterexample: with a volatility array present (`volatility_selected`
= const 0.01, as after a `report_discount_rate` run with flat 1% volatility),
the stock projection reads numpy's ambient global generator: two runs of
`assets_variables_projection` over the same engine state, whose ambient
draws happen to be 0 and 1 respectively, already differ in `stocks_mv[1]`
(1,296,000 vs 1,308,000).  There is no injectable generator in the code, and
the expected-return-only 8% path is not followed, refuting the claim that
two runs on the same state produce equal projections. -/
theorem c4_random_dependence_counterexample :
    (assets_variables_projection 980000 950000 1200000 200000 1000000 20 20
        (some fun _ => 1 / 50) (some fun _ => 1 / 100) (fun _ => 0)).stocks_mv 1 ≠
      (assets_variables_projection 980000 950000 1200000 200000 1000000 20 20
        (some fun _ => 1 / 50) (some fun _ => 1 / 100) (fun _ => 1)).stocks_mv 1 := by
  have e1 : (assets_variables_projection 980000 950000 1200000 200000 1000000 20 20
      (some fun _ => 1 / 50) (some fun _ => 1 / 100) (fun _ => 0)).stocks_mv 1 =
      1200000 * (1 + (2 / 25 + (1 / 100) * 0)) := rfl
  have e2 : (assets_variables_projection 980000 950000 1200000 200000 1000000 20 20
      (some fun _ => 1 / 50) (some fun _ => 1 / 100) (fun _ => 1)).stocks_mv 1 =
      1200000 * (1 + (2 / 25 + (1 / 100) * 1)) := rfl
  rw [e1, e2]
  norm_num

/-- C4 (amended): `assets_variables_projection` is deterministic in the bond
and cash components (they never read the random stream), and deterministic in
the stock component only when no volatility array has been computed
(`volatility_selected` absent): then the stock market value follows the
expected-return-only 8% path `stocks_mv[t] = stocks_mv[0] * 1.08^t` and two
runs coincide.  When a volatility array is present the stock path depends on
numpy's ambient global draws; no injectable, seedable generator exists in the
code. -/
theorem c4_projection_determinism (vnc0 bmv0 smv0 c0 nominal maturity : ℚ)
    (matn : ℕ) (fwd vol : Option (ℕ → ℚ)) (shock shock2 : ℕ → ℚ) (t : ℕ)
    (h : vol = none) :
    (assets_variables_projection vnc0 bmv0 smv0 c0 nominal maturity matn fwd vol
        shock).bonds_vnc t =
      (assets_variables_projection vnc0 bmv0 smv0 c0 nominal maturity matn fwd vol
        shock2).bonds_vnc t ∧
    (assets_variables_projection vnc0 bmv0 smv0 c0 nominal maturity matn fwd vol
        shock).bonds_mv t =
      (assets_variables_projection vnc0 bmv0 smv0 c0 nominal maturity matn fwd vol
        shock2).bonds_mv t ∧
    (assets_variables_projection vnc0 bmv0 smv0 c0 nominal maturity matn fwd vol
        shock).cash_balance t =
      (assets_variables_projection vnc0 bmv0 smv0 c0 nominal maturity matn fwd vol
        shock2).cash_balance t ∧
    (assets_variables_projection vnc0 bmv0 smv0 c0 nominal maturity matn fwd vol
        shock).stocks_mv t =
      (assets_variables_projection vnc0 bmv0 smv0 c0 nominal maturity matn fwd vol
        shock2).stocks_mv t ∧
    (assets_variables_projection vnc0 bmv0 smv0 c0 nominal maturity matn fwd vol
        shock).stocks_mv t = smv0 * (27 / 25) ^ t := by
  subst h
  have key : ∀ (sh : ℕ → ℚ) (u : ℕ), stocks_mv_path smv0 none sh u = smv0 * (27 / 25) ^ u := by
    intro sh u
    induction u with
    | zero =>
      rw [pow_zero, mul_one]
      rfl
    | succ u ih =>
      have e : stocks_mv_path smv0 none sh (u + 1) =
          stocks_mv_path smv0 none sh u * (1 + 2 / 25) := rfl
      have h27 : (1 : ℚ) + 2 / 25 = 27 / 25 := by norm_num
      rw [e, ih, h27, pow_succ, mul_assoc]
  refine ⟨rfl, rfl, rfl, ?_, key shock t⟩
  show stocks_mv_path smv0 none shock t = stocks_mv_path smv0 none shock2 t
  rw [key shock t, key shock2 t]

/-- Witness for C4 (amended): the determinism theorem at the default initial
values, no volatility array, draw streams 0 and 1, `t = 2`. -/
theorem c4_projection_determinism_witness :
    (assets_variables_projection 980000 950000 1200000 200000 1000000 20 20
        none none (fun _ => 0)).bonds_vnc 2 =
      (assets_variables_projection 980000 950000 1200000 200000 1000000 20 20
        none none (fun _ => 1)).bonds_vnc 2 ∧
    (assets_variables_projection 980000 950000 1200000 200000 1000000 20 20
        none none (fun _ => 0)).bonds_mv 2 =
      (assets_variables_projection 980000 950000 1200000 200000 1000000 20 20
        none none (fun _ => 1)).bonds_mv 2 ∧
    (assets_variables_projection 980000 950000 1200000 200000 1000000 20 20
        none none (fun _ => 0)).cash_balance 2 =
      (assets_variables_projection 980000 950000 1200000 200000 1000000 20 20
        none none (fun _ => 1)).cash_balance 2 ∧
    (assets_variables_projection 980000 950000 1200000 200000 1000000 20 20
        none none (fun _ => 0)).stocks_mv 2 =
      (assets_variables_projection 980000 950000 1200000 200000 1000000 20 20
        none none (fun _ => 1)).stocks_mv 2 ∧
    (assets_variables_projection 980000 950000 1200000 200000 1000000 20 20
        none none (fun _ => 0)).stocks_mv 2 = 1200000 * (27 / 25) ^ 2 :=
  c4_projection_determinism 980000 950000 1200000 200000 1000000 20 20 none none
    (fun _ => 0) (fun _ => 1) 2 rfl

/-- C6 counterexample: contracts-in-force is not monotonically non-increasing
for every configuration and mortality table.  With the code's own default
synthesized mortality array (`0.001 * 1.1**age`) and `average_age = 92`,
`insured_number = 1000`, `redemption_rates = 0.05`, the survival factor
`1 - mortality - redemption` is below `-1` two years running (mortality at
ages 93 and 94 exceeds 700%), so `contracts_in_force[1]` is a large negative
number and `contracts_in_force[2]` is a large positive one:
the series increases from year 1 to year 2. -/
theorem c6_contracts_monotone_counterexample :
    ¬ (contracts_in_force none 1000 92 (1 / 20) 2 ≤
        contracts_in_force none 1000 92 (1 / 20) 1) := by
  have e1 : contracts_in_force none 1000 92 (1 / 20) 1 =
      1000 * (1 - mortality_rate none 93 - 1 / 20) := rfl
  have e2 : contracts_in_force none 1000 92 (1 / 20) 2 =
      contracts_in_force none 1000 92 (1 / 20) 1 *
        (1 - mortality_rate none 94 - 1 / 20) := rfl
  have m93 : mortality_rate none 93 = (1 / 1000) * (11 / 10) ^ 93 := by
    unfold mortality_rate
    rw [if_pos (by norm_num)]
  have m94 : mortality_rate none 94 = (1 / 1000) * (11 / 10) ^ 94 := by
    unfold mortality_rate
    rw [if_pos (by norm_num)]
  rw [e2, e1, m93, m94]
  norm_num

/-- C6 (amended): the contracts-in-force series starts at `insured_number`
and each subsequent year is multiplied by `(1 - mortality_rate -
redemption_rate)`; it is monotonically non-increasing provided the portfolio
starts nonnegative and every applicable mortality rate is nonnegative with
`mortality + redemption ≤ 1` (equivalently, the yearly survival factor lies
in `[0, 1]` — the regime the spec's invariant presupposes; outside it the
code's multiplicative update can make the series increase).  In the example
with `insured_number = 1000`, `premium = 50000`, constant mortality `0.01`
and redemption `0.05`: `contracts_in_force[1] = 940` and
`premium_income[1] = 47,000,000`. -/
theorem c6_contracts_in_force_recursion (table : Option (List ℚ)) (n0 : ℚ)
    (age0 : ℕ) (r : ℚ) (t : ℕ)
    (h0 : 0 ≤ n0) (hr : 0 ≤ r)
    (hm : ∀ a, 0 ≤ mortality_rate table a)
    (hs : ∀ a, mortality_rate table a + r ≤ 1) :
    contracts_in_force table n0 age0 r 0 = n0 ∧
    contracts_in_force table n0 age0 r (t + 1) =
      contracts_in_force table n0 age0 r t *
        (1 - mortality_rate table (age0 + t + 1) - r) ∧
    contracts_in_force table n0 age0 r (t + 1) ≤ contracts_in_force table n0 age0 r t ∧
    contracts_in_force (some (List.replicate 100 (1 / 100))) 1000 45 (1 / 20) 1 = 940 ∧
    premium_income (some (List.replicate 100 (1 / 100))) 1000 45 (1 / 20) 50000 1 =
      47000000 := by
  have hnn : ∀ u, 0 ≤ contracts_in_force table n0 age0 r u := by
    intro u
    induction u with
    | zero => exact h0
    | succ u ih =>
      have e : contracts_in_force table n0 age0 r (u + 1) =
          contracts_in_force table n0 age0 r u *
            (1 - mortality_rate table (age0 + u + 1) - r) := rfl
      rw [e]
      have h1 := hs (age0 + u + 1)
      exact mul_nonneg ih (by linarith)
  have hex : contracts_in_force (some (List.replicate 100 (1 / 100))) 1000 45 (1 / 20) 1 =
      1000 * (1 - mortality_rate (some (List.replicate 100 (1 / 100))) 46 - 1 / 20) := rfl
  have hmr : mortality_rate (some (List.replicate 100 (1 / 100))) 46 = 1 / 100 := rfl
  refine ⟨rfl, rfl, ?_, ?_, ?_⟩
  · have e : contracts_in_force table n0 age0 r (t + 1) =
        contracts_in_force table n0 age0 r t *
          (1 - mortality_rate table (age0 + t + 1) - r) := rfl
    rw [e]
    have h1 : 1 - mortality_rate table (age0 + t + 1) - r ≤ 1 := by
      have := hm (age0 + t + 1)
      linarith
    exact le_trans (mul_le_mul_of_nonneg_left h1 (hnn t)) (le_of_eq (mul_one _))
  · rw [hex, hmr]
    norm_num
  · unfold premium_income
    rw [hex, hmr]
    norm_num

/-- Witness for C6 (amended): the recursion theorem at the empty loaded
mortality table (flat fallback rate 5%), `insured_number = 1000`,
`average_age = 45`, `redemption = 5%`, `premium = 50000`, `t = 0`. -/
theorem c6_contracts_in_force_recursion_witness :
    contracts_in_force (some []) 1000 45 (1 / 20) 0 = 1000 ∧
    contracts_in_force (some []) 1000 45 (1 / 20) (0 + 1) =
      contracts_in_force (some []) 1000 45 (1 / 20) 0 *
        (1 - mortality_rate (some []) (45 + 0 + 1) - 1 / 20) ∧
    contracts_in_force (some []) 1000 45 (1 / 20) (0 + 1) ≤
      contracts_in_force (some []) 1000 45 (1 / 20) 0 ∧
    contracts_in_force (some (List.replicate 100 (1 / 100))) 1000 45 (1 / 20) 1 = 940 ∧
    premium_income (some (List.replicate 100 (1 / 100))) 1000 45 (1 / 20) 50000 1 =
      47000000 := by
  have hflat : ∀ a, mortality_rate (some ([] : List ℚ)) a = 1 / 20 := by
    intro a
    show (if a < ([] : List ℚ).length then ([] : List ℚ).getD a 0 else 1 / 20) = 1 / 20
    rw [if_neg (by simp)]
  exact c6_contracts_in_force_recursion (some []) 1000 45 (1 / 20) 0
    (by norm_num) (by norm_num)
    (fun a => by rw [hflat a]; norm_num)
    (fun a => by rw [hflat a]; norm_num)

/-- C7: the maturity-column selection of `report_discount_rate` uses the
requested column when present; when it is absent it falls back to the first
column instead of failing, and only when no fallback column exists at all
(a row with zero columns) does the lookup fail with the MissingCurveData
error. -/
theorem c7_missing_curve_column (row : List (String × ℚ)) (mat mat2 : String) (v : ℚ)
    (h : row.lookup mat = none) (h2 : row.lookup mat2 = some v) :
    lookupForwardRate row mat =
      (if row.isEmpty then .error .missingCurveData
       else .ok (row.headD ("", 0)).2) ∧
    lookupForwardRate row mat2 = .ok v := by
  constructor
  · unfold lookupForwardRate
    rw [h]
    cases row with
    | nil => rfl
    | cons p l => rfl
  · unfold lookupForwardRate
    rw [h2]

/-- Witness for C7: a one-column table row `[("1Y", 0.02)]`, requested
maturity "5Y" (absent, so the "1Y" column is used as fallback), and the
present column "1Y". -/
theorem c7_missing_curve_column_witness :
    lookupForwardRate [("1Y", (1 / 50 : ℚ))] "5Y" =
      (if ([("1Y", (1 / 50 : ℚ))] : List (String × ℚ)).isEmpty then
        .error .missingCurveData
       else .ok (([("1Y", (1 / 50 : ℚ))] : List (String × ℚ)).headD ("", 0)).2) ∧
    lookupForwardRate [("1Y", (1 / 50 : ℚ))] "1Y" = .ok (1 / 50 : ℚ) :=
  c7_missing_curve_column [("1Y", (1 / 50 : ℚ))] "5Y" "1Y" (1 / 50) rfl rfl

/-- C8: in `report_asset_liability`, Surplus BV plus Liabilities BV equals
Assets BV exactly for every projection year, because `surplus_bv` is defined
as `total_assets_booked_value - total_liabilities_vnc` (exact in the
arithmetic of the embedding). -/
theorem c8_balance_sheet_identity (bvnc svnc cash tech : ℕ → ℚ) (risk_adj : ℚ) (t : ℕ) :
    surplus_bv bvnc svnc cash tech risk_adj t + total_liabilities_vnc tech risk_adj t =
      total_assets_booked_value bvnc svnc cash t := by
  unfold surplus_bv
  ring

/-- C9 counterexample: the CF Coverage Ratio column is
`total_asset_cf / total_liability_cf`, whose numerator is investment income
only — premium income is not included.  At a state with premium 100, zero
asset balances and outflow 50 in year 0, the code's ratio is 0 while the
claimed "total inflows / total outflows" would be (100+0)/50 = 2. -/
theorem c9_coverage_numerator_counterexample :
    cf_coverage (fun _ => 0) (fun _ => 0) (fun _ => 0) (fun _ => 50) (fun _ => 0)
        (fun _ => 0) (7 / 200) 0 = ((0 : ℚ) : WithTop ℚ) ∧
    (((100 : ℚ) + total_asset_cf (fun _ => 0) (fun _ => 0) (fun _ => 0) (7 / 200) 0) /
        total_liability_cf (fun _ => 50) (fun _ => 0) (fun _ => 0) 0 : ℚ) = 2 ∧
    ((0 : ℚ) : WithTop ℚ) ≠ ((2 : ℚ) : WithTop ℚ) := by
  have h50 : (0 : ℚ) < total_liability_cf (fun _ => 50) (fun _ => 0) (fun _ => 0) 0 := by
    norm_num [total_liability_cf]
  refine ⟨?_, ?_, ?_⟩
  · unfold cf_coverage
    rw [if_pos h50]
    norm_num [total_asset_cf, total_liability_cf]
  · norm_num [total_asset_cf, total_liability_cf]
  · simp

/-- C9 (amended): for every year the CF Coverage Ratio equals investment
income (`total_asset_cf`: bond coupons + stock dividends + cash interest)
divided by total outflows (benefits + surrenders + expenses) — premium income
is not part of the numerator, so whenever premium is non-zero the ratio
differs from "total inflows / total outflows" — and for any year whose total
outflow is exactly zero the ratio is infinity rather than an exception. -/
theorem c9_coverage_ratio (prem bvnc smv cash ben sur expns : ℕ → ℚ) (coupon : ℚ)
    (t s : ℕ)
    (h1 : total_liability_cf ben sur expns t = 0)
    (h2 : 0 < total_liability_cf ben sur expns s)
    (h3 : prem s ≠ 0) :
    cf_coverage bvnc smv cash ben sur expns coupon t = ⊤ ∧
    cf_coverage bvnc smv cash ben sur expns coupon s =
      ((total_asset_cf bvnc smv cash coupon s / total_liability_cf ben sur expns s : ℚ) :
        WithTop ℚ) ∧
    cf_coverage bvnc smv cash ben sur expns coupon s ≠
      (((prem s + total_asset_cf bvnc smv cash coupon s) /
          total_liability_cf ben sur expns s : ℚ) : WithTop ℚ) := by
  refine ⟨?_, ?_, ?_⟩
  · unfold cf_coverage
    rw [h1, if_neg (lt_irrefl 0)]
  · unfold cf_coverage
    rw [if_pos h2]
  · unfold cf_coverage
    rw [if_pos h2]
    intro hcontra
    have h4 := WithTop.coe_injective hcontra
    have ho : total_liability_cf ben sur expns s ≠ 0 := ne_of_gt h2
    rw [div_eq_div_iff ho ho] at h4
    have h5 : prem s * total_liability_cf ben sur expns s = 0 := by ring_nf at h4 ⊢; linarith
    rcases mul_eq_zero.mp h5 with h6 | h6
    · exact h3 h6
    · exact ho h6

/-- Witness for C9 (amended): premium 100, zero balances, outflow 50 in year
0 and zero outflow in year 1. -/
theorem c9_coverage_ratio_witness :
    cf_coverage (fun _ => 0) (fun _ => 0) (fun _ => 0)
        (fun u => if u = 0 then 50 else 0) (fun _ => 0) (fun _ => 0) (7 / 200) 1 = ⊤ ∧
    cf_coverage (fun _ => 0) (fun _ => 0) (fun _ => 0)
        (fun u => if u = 0 then 50 else 0) (fun _ => 0) (fun _ => 0) (7 / 200) 0 =
      ((total_asset_cf (fun _ => 0) (fun _ => 0) (fun _ => 0) (7 / 200) 0 /
          total_liability_cf (fun u => if u = 0 then 50 else 0) (fun _ => 0) (fun _ => 0) 0 :
        ℚ) : WithTop ℚ) ∧
    cf_coverage (fun _ => 0) (fun _ => 0) (fun _ => 0)
        (fun u => if u = 0 then 50 else 0) (fun _ => 0) (fun _ => 0) (7 / 200) 0 ≠
      ((((fun _ => (100 : ℚ)) 0 + total_asset_cf (fun _ => 0) (fun _ => 0) (fun _ => 0)
            (7 / 200) 0) /
          total_liability_cf (fun u => if u = 0 then 50 else 0) (fun _ => 0) (fun _ => 0) 0 :
        ℚ) : WithTop ℚ) :=
  c9_coverage_ratio (fun _ => 100) (fun _ => 0) (fun _ => 0) (fun _ => 0)
    (fun u => if u = 0 then 50 else 0) (fun _ => 0) (fun _ => 0) (7 / 200) 1 0
    (by norm_num [total_liability_cf]) (by norm_num [total_liability_cf]) (by norm_num)

/-- C5 counterexample: with no discount curve computed, `report_neutral_risk`
does not return an empty/default-shaped result — its guard raises
`AttributeError` ("deflator must be computed via report_discount_rate
first"), an exception that propagates past the reporting boundary, refuting
the claim that every report-generation operation is total. -/
theorem c5_neutral_risk_raises_counterexample :
    reportNeutralRiskTotal none 20 1000000 (7 / 200) 950000 =
      .error .missingDeflator := rfl

/-- C5 (amended): `report_discount_rate`, `report_asset_liability` and
`report_cash_flow` are total at the reporting boundary — on the state with no
loaded curve `report_discount_rate` returns the empty properly-shaped frame,
and the other two always return a table with one row per projection year —
but `report_neutral_risk` is not: it raises `AttributeError` whenever the
deflator is missing, and returns the calibration report otherwise. -/
theorem c5_reporting_boundary (d : ℕ → ℚ) (f : ℕ → ℝ)
    (prem bvnc svnc smv cash tech ben sur expns : ℕ → ℚ)
    (risk_adj coupon nominal mv : ℚ) (n : ℕ) :
    reportNeutralRiskTotal none n nominal coupon mv = .error .missingDeflator ∧
    reportNeutralRiskTotal (some d) n nominal coupon mv =
      .ok (report_neutral_risk d n nominal coupon mv) ∧
    reportDiscountRate none n = emptyDiscountDF ∧
    (reportDiscountRate (some f) n).rows.length = n ∧
    (report_asset_liability_rows bvnc svnc cash tech risk_adj n).length = n ∧
    (report_cash_flow_rows prem bvnc smv cash ben sur expns coupon n).length = n := by
  refine ⟨rfl, rfl, rfl, ?_, ?_, ?_⟩ <;>
    simp [reportDiscountRate, report_asset_liability_rows, report_cash_flow_rows]
